import Mathlib

/-!
Verification of the connectivity-check handler in
`backend/app/apis/firebase/__init__.py`.

The source file defines two pydantic models (`TestDatabaseRequest`,
`TestDatabaseResponse`) and one POST handler `test_database` that

  1. prints a request log line,
  2. builds a success response whose `data` dict holds the value of
     `db.storage.json.get("firebase_test_timestamp", default={})` and a
     fixed database URL string,
  3. on any exception prints an error log line and returns a failure
     response with `data=None`.

The embedding below is a direct transliteration.  JSON values are modelled
by an inductive type; the external key-value store is modelled by a
behaviour that either serves a finite mapping (returning the default when
the key is absent, exactly as `db.storage.json.get` does) or raises with a
textual description.  The handler is instrumented to also return the list
of emitted log lines and the trace of store operations it performed, so
that frame/effect claims can be stated.
-/

/-- JSON-like values, the codomain of the external key-value store
(`Any` in the Python source). -/
inductive JsonValue where
  | null : JsonValue
  | bool (b : Bool) : JsonValue
  | num (n : Int) : JsonValue
  | str (s : String) : JsonValue
  | obj (fields : List (String × JsonValue)) : JsonValue


/-- The empty mapping `{}`, the default passed to the store read. -/
def jsonEmptyObj : JsonValue := JsonValue.obj []

/-- `class TestDatabaseRequest(BaseModel): path: str` -/
structure TestDatabaseRequest where
  path : String


/-- `class TestDatabaseResponse(BaseModel)`: `success: bool`,
`message: str`, `data: Dict[str, Any] = None` (optional, default absent). -/
structure TestDatabaseResponse where
  success : Bool
  message : String
  data : Option (List (String × JsonValue)) := none


/-- Behaviour of the external key-value store for one request: either it
is reachable and serves a finite mapping, or the read raises an exception
whose textual description (`str(e)`) is `err`. -/
inductive StoreBehavior where
  | available (entries : List (String × JsonValue)) : StoreBehavior
  | failing (err : String) : StoreBehavior


/-- Semantics of `db.storage.json.get(key, default=dflt)`: on a reachable
store return the stored value, or `dflt` when the key is absent; on an
unreachable store raise the exception described by `err`. -/
def storeGet : StoreBehavior → String → JsonValue → Except String JsonValue
  | StoreBehavior.available entries, key, dflt =>
      Except.ok ((entries.lookup key).getD dflt)
  | StoreBehavior.failing err, _, _ => Except.error err

/-- Store operations a handler can perform (the source only ever reads). -/
inductive StoreOp where
  | read (key : String) (dflt : JsonValue) : StoreOp


/-- Effect of one store operation on the store state: a read leaves the
store unchanged, and no other operation exists. -/
def applyOp (store : StoreBehavior) : StoreOp → StoreBehavior
  | StoreOp.read _ _ => store

/-- Effect of a trace of store operations on the store state. -/
def applyOps (store : StoreBehavior) (ops : List StoreOp) : StoreBehavior :=
  ops.foldl applyOp store

/-- The fixed key read by the handler. -/
def timestampKey : String := "firebase_test_timestamp"

/-- The fixed URL string placed in the success payload. -/
def databaseUrl : String :=
  "https://meetudatabutton-default-rtdb.europe-west1.firebasedatabase.app"

/-- The handler `test_database`, instrumented with the emitted log lines
and the store-operation trace.  The `try` block first prints the request
log line and then evaluates the store read while building the success
response; the `except` block prints the error log line and returns the
failure response.  Hence the request log line is emitted on both branches
and the error line only on the failure branch. -/
def test_database (store : StoreBehavior) (request : TestDatabaseRequest) :
    TestDatabaseResponse × List String × List StoreOp :=
  let requestLog := "Testing database connection at path: " ++ request.path
  match storeGet store timestampKey jsonEmptyObj with
  | Except.ok ts =>
      ({ success := true
         message := "Firebase Realtime Database test successful. Path '"
           ++ request.path ++ "' is accessible."
         data := some [("testTimestamp", ts),
                       ("databaseUrl", JsonValue.str databaseUrl)] },
       [requestLog],
       [StoreOp.read timestampKey jsonEmptyObj])
  | Except.error e =>
      ({ success := false
         message := "Firebase Realtime Database test failed: " ++ e
         data := none },
       [requestLog, "Error testing database connection: " ++ e],
       [StoreOp.read timestampKey jsonEmptyObj])

/-- The response component of an instrumented handler run. -/
def test_database_response (store : StoreBehavior)
    (request : TestDatabaseRequest) : TestDatabaseResponse :=
  (test_database store request).1

/-- The log lines emitted by a handler run. -/
def test_database_logs (store : StoreBehavior)
    (request : TestDatabaseRequest) : List String :=
  (test_database store request).2.1

/-- The store operations performed by a handler run. -/
def test_database_ops (store : StoreBehavior)
    (request : TestDatabaseRequest) : List StoreOp :=
  (test_database store request).2.2

/-- C1: for every request and every behaviour of the external key-value
store, the handler is a total function into `TestDatabaseResponse`, and
any exception raised during the store read is caught inside the handler
and converted into a response with `success = false` (and no data), so
nothing propagates to the caller. -/
theorem c1_errors_absorbed (store : StoreBehavior)
    (req : TestDatabaseRequest) (e : String)
    (h : storeGet store timestampKey jsonEmptyObj = Except.error e) :
    (test_database_response store req).success = false ∧
    (test_database_response store req).data = none := by
  cases store with
  | available entries => simp [storeGet] at h
  | failing err => exact ⟨rfl, rfl⟩

/-- Witness for C1: a store whose read raises is absorbed into a
`success = false` response. -/
theorem c1_errors_absorbed_witness :
    storeGet (StoreBehavior.failing "boom") timestampKey jsonEmptyObj
        = Except.error "boom" ∧
    (test_database_response (StoreBehavior.failing "boom")
        ⟨"/users/test"⟩).success = false ∧
    (test_database_response (StoreBehavior.failing "boom")
        ⟨"/users/test"⟩).data = none :=
  ⟨rfl, c1_errors_absorbed (StoreBehavior.failing "boom")
    ⟨"/users/test"⟩ "boom" rfl⟩

/-- C2: when the store read of the fixed key returns a value `v` without
raising (the empty mapping being the default when the key is absent), the
handler returns `success = true`, `data.testTimestamp = v` and
`data.databaseUrl` equal to the fixed URL string. -/
theorem c2_success_payload (store : StoreBehavior)
    (req : TestDatabaseRequest) (v : JsonValue)
    (h : storeGet store timestampKey jsonEmptyObj = Except.ok v) :
    test_database_response store req =
      { success := true
        message := "Firebase Realtime Database test successful. Path '"
          ++ req.path ++ "' is accessible."
        data := some [("testTimestamp", v),
                      ("databaseUrl", JsonValue.str databaseUrl)] } := by
  cases store with
  | available entries =>
      simp only [storeGet, Except.ok.injEq] at h
      subst h
      rfl
  | failing err => simp [storeGet] at h

/-- Witness for C2: a store holding the timestamp key yields the stored
value in the success payload. -/
theorem c2_success_payload_witness :
    storeGet (StoreBehavior.available [(timestampKey, JsonValue.num 42)])
        timestampKey jsonEmptyObj = Except.ok (JsonValue.num 42) ∧
    test_database_response
        (StoreBehavior.available [(timestampKey, JsonValue.num 42)])
        ⟨"/users/test"⟩ =
      { success := true
        message := "Firebase Realtime Database test successful. Path '/users/test' is accessible."
        data := some [("testTimestamp", JsonValue.num 42),
                      ("databaseUrl", JsonValue.str databaseUrl)] } :=
  ⟨rfl, c2_success_payload
    (StoreBehavior.available [(timestampKey, JsonValue.num 42)])
    ⟨"/users/test"⟩ (JsonValue.num 42) rfl⟩

/-- C3: when the store read raises an exception described by `e`, the
handler returns `success = false`, message equal to the fixed prefix
followed by `e`, and no data. -/
theorem c3_failure_response (store : StoreBehavior)
    (req : TestDatabaseRequest) (e : String)
    (h : storeGet store timestampKey jsonEmptyObj = Except.error e) :
    test_database_response store req =
      { success := false
        message := "Firebase Realtime Database test failed: " ++ e
        data := none } := by
  cases store with
  | available entries => simp [storeGet] at h
  | failing err =>
      simp only [storeGet, Except.error.injEq] at h
      subst h
      rfl

/-- Witness for C3: a read raising with description
`connection refused` yields exactly the failure message
`Firebase Realtime Database test failed: connection refused` and null
data. -/
theorem c3_failure_response_witness :
    storeGet (StoreBehavior.failing "connection refused") timestampKey
        jsonEmptyObj = Except.error "connection refused" ∧
    test_database_response (StoreBehavior.failing "connection refused")
        ⟨"/users/test"⟩ =
      { success := false
        message := "Firebase Realtime Database test failed: connection refused"
        data := none } :=
  ⟨rfl, c3_failure_response (StoreBehavior.failing "connection refused")
    ⟨"/users/test"⟩ "connection refused" rfl⟩

/-- C4: the request path does not influence the store key read nor the
`success` and `data` fields: two requests differing only in their path,
run against the same store state, perform the identical single read of
the fixed key and return responses agreeing on `success` and `data`. -/
theorem c4_path_noninterference (store : StoreBehavior)
    (p1 p2 : String) :
    (test_database_response store ⟨p1⟩).success
        = (test_database_response store ⟨p2⟩).success ∧
    (test_database_response store ⟨p1⟩).data
        = (test_database_response store ⟨p2⟩).data ∧
    test_database_ops store ⟨p1⟩
        = [StoreOp.read timestampKey jsonEmptyObj] ∧
    test_database_ops store ⟨p2⟩
        = [StoreOp.read timestampKey jsonEmptyObj] := by
  cases store with
  | available entries => exact ⟨rfl, rfl, rfl, rfl⟩
  | failing err => exact ⟨rfl, rfl, rfl, rfl⟩

/-- C5 counterexample: with the store reachable but the timestamp key
absent, the handler returns `success = true`, not `success = false` as
the claim states. -/
theorem c5_missing_key_counterexample :
    ¬ ((test_database_response (StoreBehavior.available [])
        ⟨"/users/test"⟩).success = false) := by
  decide

/-- C5 amended: a missing timestamp key is not a failure: the read
returns the empty-mapping default, so the handler returns
`success = true` with `testTimestamp = \x7b\x7d`; only a raising read is
translated to the `success = false` response shape. -/
theorem c5_missing_key_uses_default (entries : List (String × JsonValue))
    (req : TestDatabaseRequest)
    (h : List.lookup timestampKey entries = none) :
    test_database_response (StoreBehavior.available entries) req =
      { success := true
        message := "Firebase Realtime Database test successful. Path '"
          ++ req.path ++ "' is accessible."
        data := some [("testTimestamp", jsonEmptyObj),
                      ("databaseUrl", JsonValue.str databaseUrl)] } := by
  simp [test_database_response, test_database, storeGet, h]

/-- Witness for the amended C5: the empty store state has no timestamp
key and the handler succeeds with the default. -/
theorem c5_missing_key_uses_default_witness :
    List.lookup timestampKey ([] : List (String × JsonValue)) = none ∧
    test_database_response (StoreBehavior.available []) ⟨"/x"⟩ =
      { success := true
        message := "Firebase Realtime Database test successful. Path '/x' is accessible."
        data := some [("testTimestamp", jsonEmptyObj),
                      ("databaseUrl", JsonValue.str databaseUrl)] } :=
  ⟨rfl, c5_missing_key_uses_default [] ⟨"/x"⟩ rfl⟩

/-- C6 counterexample: on a raising store read the handler emits two log
lines (the request line printed inside the try block before the read,
then the error line), not exactly one as the claim states. -/
theorem c6_single_log_counterexample :
    ¬ ((test_database_logs (StoreBehavior.failing "boom")
        ⟨"/users/test"⟩).length = 1) := by
  decide

/-- C6 amended: every invocation emits the request log line first; the
success branch emits exactly that one line, while the failure branch
emits two lines (the request line followed by the error line); the only
other observable effect is the single store read. -/
theorem c6_log_lines_per_branch (store : StoreBehavior)
    (req : TestDatabaseRequest) :
    (test_database_logs store req).length
        = (if (test_database_response store req).success then 1 else 2) ∧
    (test_database_logs store req).head?
        = some ("Testing database connection at path: " ++ req.path) ∧
    test_database_ops store req
        = [StoreOp.read timestampKey jsonEmptyObj] := by
  cases store with
  | available entries => exact ⟨rfl, rfl, rfl⟩
  | failing err => exact ⟨rfl, rfl, rfl⟩

/-- C7: the handler is deterministic and idempotent with respect to the
store: its store operations leave the store state unchanged, so running
it again after its own effects yields the identical response, log lines
and operation trace. -/
theorem c7_idempotent (store : StoreBehavior)
    (req : TestDatabaseRequest) :
    test_database (applyOps store (test_database_ops store req)) req
        = test_database store req := by
  cases store with
  | available entries => rfl
  | failing err => rfl

/-- C8: for the request with path `/users/test`, when the store holds no
value for the timestamp key (so the empty-mapping default applies), the
handler returns exactly the success response of the spec example:
`success = true`, the accessibility message for that path, and data with
`testTimestamp` the empty mapping and `databaseUrl` the fixed URL. -/
theorem c8_example_response (entries : List (String × JsonValue))
    (h : List.lookup timestampKey entries = none) :
    test_database_response (StoreBehavior.available entries)
        ⟨"/users/test"⟩ =
      { success := true
        message := "Firebase Realtime Database test successful. Path '/users/test' is accessible."
        data := some [("testTimestamp", JsonValue.obj []),
                      ("databaseUrl", JsonValue.str
        "https://meetudatabutton-default-rtdb.europe-west1.firebasedatabase.app")] } := by
  simp [test_database_response, test_database, storeGet, h,
    jsonEmptyObj, databaseUrl]

/-- Witness for C8 at the empty store state. -/
theorem c8_example_response_witness :
    List.lookup timestampKey ([] : List (String × JsonValue)) = none ∧
    test_database_response (StoreBehavior.available [])
        ⟨"/users/test"⟩ =
      { success := true
        message := "Firebase Realtime Database test successful. Path '/users/test' is accessible."
        data := some [("testTimestamp", JsonValue.obj []),
                      ("databaseUrl", JsonValue.str
        "https://meetudatabutton-default-rtdb.europe-west1.firebasedatabase.app")] } :=
  ⟨rfl, c8_example_response [] rfl⟩

/-- C9: the handler never writes to the external store: its operation
trace is exactly one read of the fixed key with the empty-mapping
default, and replaying that trace leaves any store state unchanged. -/
theorem c9_read_only (store : StoreBehavior) (req : TestDatabaseRequest) :
    test_database_ops store req
        = [StoreOp.read timestampKey jsonEmptyObj] ∧
    applyOps store (test_database_ops store req) = store := by
  cases store with
  | available entries => exact ⟨rfl, rfl⟩
  | failing err => exact ⟨rfl, rfl⟩

/-- C10: every response of the handler satisfies the invariant that
`success` holds exactly when `data` is present, and a present `data`
mapping has exactly the keys `testTimestamp` and `databaseUrl`, in that
order, and no others. -/
theorem c10_response_invariant (store : StoreBehavior)
    (req : TestDatabaseRequest) :
    ((test_database_response store req).success
        = (test_database_response store req).data.isSome) ∧
    (test_database_response store req).data.elim True
        (fun d => d.map Prod.fst = ["testTimestamp", "databaseUrl"]) := by
  cases store with
  | available entries => exact ⟨rfl, rfl⟩
  | failing err => exact ⟨rfl, trivial⟩
